import Mathlib

/-!
Verification of the action-dispatch and execution pipeline of the
agentsociety city-agent core, as implemented in
`src/agentsociety/cityagent/blocks/mobility_block.py` and
`src/agentsociety/cityagent/blocks/social_block.py`.

The Python code is shallowly embedded:

* External calls (LLM oracle, map service, transport send) are modelled as
  inputs of type `Except PyErr a`: `.error e` models the call raising an
  exception `e`; `.ok v` models it returning the given (already parsed)
  value.  Where the source parses the oracle text inside a `try:` block,
  parse failures that are caught by the same handler as the call itself are
  folded into the `.error` case; a parse failure caught by a *different*
  handler than the call is modelled separately (see the individual inputs).
* Randomness (`random.choice`, `np.random.choice`) is modelled by explicit
  index inputs, reduced modulo the length of the list drawn from; drawing
  from an empty sequence is an error, exactly as in Python.
* The agent memory store and the narrative stream are modelled as explicit
  state records threaded through each `forward`; `stream.add_*` appends a
  description and returns its index as the node id.
* Python floats are modelled as exact rationals (`ℚ`); `math.pi` is a
  strictly positive parameter `piVal` since only its sign matters for any
  claim considered here.
* A Python function raising is modelled by the `Except PyErr` result
  component being `.error`; the state components returned alongside hold
  the mutations performed before the exception was raised.
-/

abbrev PyErr := String

/-- A point of interest as consumed by `gravity_model`: the fields
`poi[0]["name"]` and `poi[0]["id"]` actually read by the source. -/
structure POI where
  name : String
  id : Nat
deriving DecidableEq, Repr

/-- An entry of the list built by `gravity_model`:
`(name, id, weight, distance)`. -/
structure Candidate where
  name : String
  id : Nat
  weight : ℚ
  distance : ℚ
deriving DecidableEq, Repr

/-- The standardized result dictionary returned by every block `forward`.
Fields that only some blocks set are `Option`s defaulting to `none`. -/
structure ResultRecord where
  success : Bool
  evaluation : String
  consumed_time : Int
  node_id : Option Nat := none
  mode : Option String := none
  target : Option String := none
  message : Option String := none
  to_place : Option Nat := none
deriving DecidableEq, Repr

/-- The per-dispatch context dictionary, restricted to the keys the
embedded core reads or writes (`plan`, `target`, `next_place`). -/
structure Context where
  plan : Option String := none
  target : Option String := none
  nextPlace : Option (String × Nat) := none
deriving DecidableEq, Repr

/-! ## Gravity model (`mobility_block.py`, `gravity_model`) -/

/-- Ring classification of a distance: the source loops `d = 1..10` and
takes the first `d` with `(d-1)*1000 <= poi[1] < d*1000`; a distance
matching no ring (in particular any distance `≥ 10000`) is left
unclassified (the source appends it to the dead `pois_Dis["more"]` bin). -/
def ringOf (dist : ℚ) : Option Nat :=
  (List.range' 1 10).find? (fun d =>
    decide (((d - 1 : Nat) : ℚ) * 1000 ≤ dist ∧ dist < (d : ℚ) * 1000))

/-- Number of input POIs classified into ring `d`
(the length of `pois_Dis[f"{d}k"]`). -/
def binCount (pois : List (POI × ℚ)) (d : Nat) : Nat :=
  (pois.filter (fun p => decide (ringOf p.2 = some d))).length

/-- The list `res` built by the second pass of `gravity_model`: one entry
per input POI that falls into a ring `1..10`, carrying the raw weight
`density / max(distance,1)^2` with `density = n / (pi*((d*1000)^2 -
((d-1)*1000)^2))`.  POIs outside every ring contribute nothing. -/
def gravityRes (piVal : ℚ) (pois : List (POI × ℚ)) : List Candidate :=
  pois.filterMap (fun p =>
    (ringOf p.2).map (fun d =>
      let n : ℚ := binCount pois d
      let S : ℚ := piVal * (((d : ℚ) * 1000) ^ 2 - (((d - 1 : Nat) : ℚ) * 1000) ^ 2)
      let density : ℚ := n / S
      let distance : ℚ := max p.2 1
      { name := p.1.name, id := p.1.id,
        weight := density / distance ^ 2, distance := distance }))

/-- `gravity_model(pois)`.  The resampling draw
`np.random.choice(len(res), size=50, p=distanceProb)` is modelled by the
index function `pick` reduced modulo `res.length` (the source's
`distanceProb`, proportional to `1/sqrt(distance)`, gives every entry of
`res` positive probability, so every index function is a possible draw);
`np.random.choice` on an empty `res` raises `ValueError`, modelled as
`none`. -/
def gravity_model (piVal : ℚ) (pois : List (POI × ℚ)) (pick : Fin 50 → Nat) :
    Option (List Candidate) :=
  let res := gravityRes piVal pois
  if h : res = [] then none
  else
    let sampled := (List.finRange 50).map (fun i =>
      res.get ⟨pick i % res.length, Nat.mod_lt _ (List.length_pos.mpr h)⟩)
    let total := (sampled.map Candidate.weight).sum
    some (sampled.map (fun c => { c with weight := c.weight / total }))

/-! ## Social block state (`social_block.py`) -/

/-- Assoc-list model of a Python dict keyed by strings (first occurrence
of a key is its binding). -/
def dictGet {α : Type} : List (String × α) → String → Option α
  | [], _ => none
  | kv :: rest, k => if kv.1 = k then some kv.2 else dictGet rest k

/-- Python `d[k] = v`: update the existing binding in place, else append. -/
def dictSet {α : Type} : List (String × α) → String → α → List (String × α)
  | [], k, v => [(k, v)]
  | kv :: rest, k, v => if kv.1 = k then (k, v) :: rest else kv :: dictSet rest k v

/-- Python `max(d.items(), key=lambda x: x[1])` over a dict of scores:
first binding with the maximal value (ties keep the earlier one);
`none` on an empty dict (where Python would raise). -/
def dictMax (l : List (String × Int)) : Option (String × Int) :=
  l.foldl (fun acc kv =>
    match acc with
    | none => some kv
    | some m => if kv.2 > m.2 then some kv else some m) none

/-- The agent-status keys read or written by the social blocks.  The
profile keys (`gender`, ...) only feed prompt text and are omitted;
`attitude = none` models the status holding `None`, on which
`get_prompt`'s `topics.keys()` raises `AttributeError`. -/
structure SocMemory where
  friends : List String
  relationships : List (String × Int)
  chatHistories : List (String × String)
  attitude : Option (List String)
deriving DecidableEq, Repr

/-- Social-side state: memory status plus the social narrative stream
(`memory.stream.add_social` appends and returns the new index). -/
structure SocState where
  mem : SocMemory
  stream : List String
deriving DecidableEq, Repr

def addSocial (st : SocState) (desc : String) : Nat × SocState :=
  (st.stream.length, { st with stream := st.stream ++ [desc] })

/-! ## SocialNoneBlock.forward -/

/-- Inputs of `SocialNoneBlock.forward`.  `timeResp` models the
`llm.atext_request` call at line 101 together with the later
`json.loads`/`["time"]` parse: `.error e` = the LLM call itself raised
(outside any `try:`, so it propagates); `.ok none` = the call returned
text whose parse inside the `try:` failed; `.ok (some t)` = the parse
produced `result["time"] = t`. -/
structure SNInputs where
  intention : String
  timeResp : Except PyErr (Option Int)
deriving Repr

/-- `SocialNoneBlock.forward(step, context)`.  `context["plan"]` is read
before the `try:` block, so a missing key or a `None` context raises. -/
def socialNoneForward (i : SNInputs) (ctx : Option Context) (st : SocState) :
    Except PyErr ResultRecord × SocState :=
  match ctx with
  | none => (.error "TypeError: context is None", st)
  | some c =>
    match c.plan with
    | none => (.error "KeyError: plan", st)
    | some _ =>
      match i.timeResp with
      | .error e => (.error e, st)
      | .ok (some t) =>
        let r := addSocial st ("I " ++ i.intention)
        (.ok { success := true, evaluation := "Finished " ++ i.intention,
               consumed_time := t, node_id := some r.1 }, r.2)
      | .ok none =>
        let r := addSocial st ("I failed to execute " ++ i.intention)
        (.ok { success := false, evaluation := "Failed to execute " ++ i.intention,
               consumed_time := 5, node_id := some r.1 }, r.2)

/-! ## FindPersonBlock.forward -/

/-- Inputs of `FindPersonBlock.forward`.  `resp` models the
`llm.atext_request` at line 232 together with the `eval(response)` parse:
`.error e` = the LLM call raised (caught by the *outer* handler);
`.ok none` = `eval` raised or did not yield a `(str, int)` pair (caught by
the *inner* handler); `.ok (some (mode, idx))` = it yielded that pair. -/
structure FPInputs where
  intention : String
  resp : Except PyErr (Option (String × Int))
deriving Repr

/-- The default target on validation failure:
`max(relationships.items(), key=lambda x: x[1])[0] if relationships else
friends[0]`. -/
def fpFallbackTarget (relationships : List (String × Int)) (f0 : String) : String :=
  match dictMax relationships with
  | some kv => kv.1
  | none => f0

/-- `FindPersonBlock.forward(step, context)`.  Returns the result, the
updated state, and the (possibly updated) context. -/
def findPersonForward (i : FPInputs) (ctx : Option Context) (st : SocState) :
    Except PyErr ResultRecord × SocState × Option Context :=
  match st.mem.friends with
  | [] =>
    let r := addSocial st "I cannot find any friends to contact with."
    (.ok { success := false, evaluation := "No friends found in social network",
           consumed_time := 5, node_id := some r.1 }, r.2, ctx)
  | f0 :: rest =>
    match i.resp with
    | .error e =>
      let r := addSocial st "I cannot find any friends to socialize with."
      (.ok { success := false, evaluation := "Error in finding person: " ++ e,
             consumed_time := 5, node_id := some r.1 }, r.2, ctx)
    | .ok parsed =>
      -- inner try: validate mode and index, convert the index, write context
      let valid : Option (String × String × Option Context) :=
        match parsed with
        | none => none
        | some mi =>
          if (mi.1 = "online" ∨ mi.1 = "offline") ∧
              0 ≤ mi.2 ∧ mi.2 < (f0 :: rest).length then
            match ctx with
            | none => none -- `context["target"] = target` on `None` raises, caught
            | some c =>
              let t := (f0 :: rest).getD mi.2.toNat ""
              some (mi.1, t, some { c with target := some t })
          else none
      let chosen : String × String × Option Context :=
        match valid with
        | some v => v
        | none => ("online", fpFallbackTarget st.mem.relationships f0, ctx)
      let r := addSocial st
        ("I selected the friend " ++ chosen.2.1 ++ " for " ++ chosen.1 ++ " interaction")
      (.ok { success := true,
             evaluation := "Selected friend " ++ chosen.2.1 ++ " for " ++
               chosen.1 ++ " interaction",
             consumed_time := 15, mode := some chosen.1,
             target := some chosen.2.1, node_id := some r.1 }, r.2, chosen.2.2)

/-! ## MessageBlock.forward -/

/-- The chat-history update of `MessageBlock.forward` (lines 370-377):
create the key with `""` when absent, add the `", "` separator when the
existing history is non-empty, then append `"me: <message>"`. -/
def appendChat (old : Option String) (message : String) : String :=
  match old with
  | none => "me: " ++ message
  | some s => if s.length > 0 then s ++ ", " ++ "me: " ++ message
              else s ++ "me: " ++ message

/-- Inputs of `MessageBlock.forward`: the inputs for the nested
`FindPersonBlock` call, the message-generation LLM call (line 365; its
raising is caught by the outer handler), and the transport send
(line 383, `agent.send_message_to_agent`). -/
structure MsgInputs where
  intention : String
  fp : FPInputs
  genResp : Except PyErr String
  sendResp : Except PyErr Unit

/-- The outer `except` handler of `MessageBlock.forward`: narrate the
failure and return a `success: false` record. -/
def msgExceptPath (e : PyErr) (targetText : String) (ctx : Option Context)
    (st : SocState) : Except PyErr ResultRecord × SocState × Option Context :=
  let r := addSocial st ("I cannot send a message to " ++ targetText)
  (.ok { success := false, evaluation := "Error in sending message: " ++ e,
         consumed_time := 5, node_id := some r.1 }, r.2, ctx)

/-- The tail of `MessageBlock.forward` once a target is resolved: build
the prompt (raises `AttributeError` when the `attitude` status is `None`),
generate the message (empty text falls back to a default), append exactly
one chat-history entry, update the memory status, then send. -/
def msgCore (i : MsgInputs) (target : String) (ctx : Option Context)
    (st : SocState) : Except PyErr ResultRecord × SocState × Option Context :=
  match st.mem.attitude with
  | none => msgExceptPath "AttributeError: keys" target ctx st
  | some _ =>
    match i.genResp with
    | .error e => msgExceptPath e target ctx st
    | .ok raw =>
      let message := if raw = "" then "Hello! How are you?" else raw
      let ch := st.mem.chatHistories
      let ch' := dictSet ch target (appendChat (dictGet ch target) message)
      let st1 : SocState := { st with mem := { st.mem with chatHistories := ch' } }
      match i.sendResp with
      | .error e => msgExceptPath e target ctx st1
      | .ok _ =>
        let r := addSocial st1 ("I sent a message to " ++ target ++ ": " ++ message)
        (.ok { success := true,
               evaluation := "Sent message to " ++ target ++ ": " ++ message,
               consumed_time := 10, message := some message,
               target := some target, node_id := some r.1 }, r.2, ctx)

/-- `MessageBlock.forward(step, context)`: resolve the target from the
context (a missing, `None` or empty-string target triggers the nested
`FindPersonBlock` call), then run the message path. -/
def messageForward (i : MsgInputs) (ctx : Option Context) (st : SocState) :
    Except PyErr ResultRecord × SocState × Option Context :=
  let t0 : Option String :=
    match ctx with
    | some c => c.target
    | none => none
  match t0 with
  | some t =>
    if t = "" then
      -- falsy target: fall through to find_person
      match findPersonForward i.fp ctx st with
      | (.ok rec, st1, ctx1) =>
        if rec.success then
          match rec.target with
          | some t1 => msgCore i t1 ctx1 st1
          | none => (.error "NameError: target", st1, ctx1)
        else
          (.ok { success := false, evaluation := "Could not find target for message",
                 consumed_time := 5, node_id := rec.node_id }, st1, ctx1)
      | (.error _, st1, ctx1) => msgExceptPath "find person raised" "None" ctx1 st1
    else msgCore i t ctx st
  | none =>
    match findPersonForward i.fp ctx st with
    | (.ok rec, st1, ctx1) =>
      if rec.success then
        match rec.target with
        | some t1 => msgCore i t1 ctx1 st1
        | none => (.error "NameError: target", st1, ctx1)
      else
        (.ok { success := false, evaluation := "Could not find target for message",
               consumed_time := 5, node_id := rec.node_id }, st1, ctx1)
    | (.error _, st1, ctx1) => msgExceptPath "find person raised" "None" ctx1 st1

/-! ## SocialBlock (coordinator) -/

/-- The three sub-blocks registered with the social dispatcher. -/
inductive SocSub
  | findPerson
  | message
  | noneBlock
deriving DecidableEq, Repr

/-- Dispatcher inputs: the oracle classification (`.ok (some b)` = a valid
block choice parsed from the response) and the random-fallback index. -/
structure SocDispatchIn where
  resp : Except PyErr (Option SocSub)
  pick : Nat

/-- Modelled from the spec: `dispatcher.py` (the `BlockDispatcher` used by
both coordinators) is not under `src/`; spec §4.4 describes an
oracle-backed classification over the registered blocks with the
single-attempt-then-random-fallback policy of §4.2, which never raises. -/
def dispatchSoc (d : SocDispatchIn) : SocSub :=
  match d.resp with
  | .ok (some b) => b
  | _ => [SocSub.findPerson, SocSub.message, SocSub.noneBlock].getD
           (d.pick % 3) SocSub.noneBlock

/-- Inputs of a `SocialBlock.forward` call: dispatch inputs plus the
inputs of whichever sub-block runs. -/
structure SocialBlockIn where
  d : SocDispatchIn
  fp : FPInputs
  msg : MsgInputs
  sn : SNInputs

/-- `SocialBlock.forward(step, context)` (lines 431-463): increment the
trigger counter, dispatch, run the selected sub-block, and catch any
exception with a uniform `success: false` record. -/
def socialBlockForward (i : SocialBlockIn) (ctx : Option Context)
    (st : SocState) (trigger : Nat) :
    Except PyErr ResultRecord × SocState × Option Context × Nat :=
  let runSub : Except PyErr ResultRecord × SocState × Option Context :=
    match dispatchSoc i.d with
    | .findPerson => findPersonForward i.fp ctx st
    | .message => messageForward i.msg ctx st
    | .noneBlock =>
      let r := socialNoneForward i.sn ctx st
      (r.1, r.2, ctx)
  match runSub with
  | (.ok rec, st1, ctx1) => (.ok rec, st1, ctx1, trigger + 1)
  | (.error _, st1, ctx1) =>
    (.ok { success := false,
           evaluation := "Failed to complete social interaction with default behavior",
           consumed_time := 15, node_id := none }, st1, ctx1, trigger + 1)

/-! ## Mobility block state (`mobility_block.py`) -/

/-- The agent-status keys read or written by the mobility blocks.
`home`/`work` hold the `["aoi_position"]["aoi_id"]` chain result (`none` =
the status is missing or `None`, on which the subscription raises);
`position` is `none` when the `position` status itself is missing (its
`.get(...)`/`.values()` call raises), and `some p` with `p` the
`aoi_position.aoi_id` chain of the position dict, absent keys giving
`none` via the `.get` defaults. -/
structure MobMemory where
  agentId : Nat
  home : Option Nat
  work : Option Nat
  position : Option (Option Nat)
  numberPoiVisited : Int
deriving DecidableEq, Repr

/-- Mobility-side state: memory status, the mobility narrative stream, and
the list of `simulator.set_aoi_schedules(agent_id, aoi_id)` calls issued. -/
structure MobState where
  mem : MobMemory
  stream : List String
  schedules : List (Nat × Nat)
deriving DecidableEq, Repr

def addMobility (st : MobState) (desc : String) : Nat × MobState :=
  (st.stream.length, { st with stream := st.stream ++ [desc] })

/-! ## PlaceSelectionBlock.forward -/

/-- The radius stage (lines 210-224): the parsed integer from the LLM
response on success — used without any range validation — and the default
`10000` when the request, the JSON parse, the key lookup or the `int`
conversion fails. -/
def radiusStage (resp : Except PyErr Int) : Int :=
  match resp with
  | .ok r => r
  | .error _ => 10000

/-- Inputs of `PlaceSelectionBlock.forward`.  `stage1`/`stage2` model the
two category-selection LLM calls with their parses (errors are caught and
replaced by a `random.choice` fallback driven by `pick1`/`pick2`);
`radius` feeds `radiusStage`; `mapQuery cat r` is the map service's
response to `query_pois(category_prefix=cat, radius=r, ...)`; `piVal`,
`gravityPick` and `finalPick` drive `gravity_model` and the final
`np.random.choice` draw; `allPois`/`fallbackPick` model the
`get_pois`/`random.choice` fallback on an empty query result. -/
structure PSInputs where
  intention : String
  poiCate : List (String × List String)
  stage1 : Except PyErr String
  pick1 : Nat
  stage2 : Except PyErr String
  pick2 : Nat
  radius : Except PyErr Int
  mapQuery : String → Int → Except PyErr (List (POI × ℚ))
  piVal : ℚ
  gravityPick : Fin 50 → Nat
  finalPick : Nat
  allPois : Except PyErr (List (String × Nat))
  fallbackPick : Nat

/-- Stages 1 and 2 of `PlaceSelectionBlock.forward` (lines 170-208):
category then sub-category, each falling back to a random choice on
failure; `random.choice` over an empty key or sub-category list raises
inside the handler and propagates. -/
def psCategory (i : PSInputs) : Except PyErr String :=
  let stage1Res : Except PyErr (String × List String) :=
    match i.stage1 with
    | .ok t =>
      match dictGet i.poiCate t with
      | some sub => .ok (t, sub)
      | none =>
        let keys := i.poiCate.map Prod.fst
        if keys.isEmpty then .error "IndexError: empty poi categories"
        else
          let k := keys.getD (i.pick1 % keys.length) ""
          .ok (k, (dictGet i.poiCate k).getD [])
    | .error _ =>
      let keys := i.poiCate.map Prod.fst
      if keys.isEmpty then .error "IndexError: empty poi categories"
      else
        let k := keys.getD (i.pick1 % keys.length) ""
        .ok (k, (dictGet i.poiCate k).getD [])
  match stage1Res with
  | .error e => .error e
  | .ok s1 =>
    match i.stage2 with
    | .ok t => .ok t
    | .error _ =>
      if s1.2.isEmpty then .error "IndexError: empty sub categories"
      else .ok (s1.2.getD (i.pick2 % s1.2.length) "")

/-- `PlaceSelectionBlock.forward(step, context)` (lines 168-255).
`context["plan"]` is read before the first `try:`; the position read, the
map query, the `gravity_model` call and both empty-inventory fallbacks are
outside every `try:`, so their failures propagate. -/
def psForward (i : PSInputs) (ctx : Context) (st : MobState) :
    Except PyErr ResultRecord × MobState × Context :=
  match ctx.plan with
  | none => (.error "KeyError: plan", st, ctx)
  | some _ =>
    match psCategory i with
    | .error e => (.error e, st, ctx)
    | .ok levelTwo =>
      let radius := radiusStage i.radius
      match st.mem.position with
      | none => (.error "AttributeError: values", st, ctx)
      | some _ =>
        match i.mapQuery levelTwo radius with
        | .error e => (.error e, st, ctx)
        | .ok pois =>
          let nextPlace : Except PyErr (String × Nat) :=
            if pois.isEmpty then
              match i.allPois with
              | .error e => .error e
              | .ok [] => .error "IndexError: no pois on the map"
              | .ok (a :: rest) =>
                .ok ((a :: rest).getD (i.fallbackPick % (a :: rest).length) ("", 0))
            else
              match gravity_model i.piVal pois i.gravityPick with
              | none => .error "ValueError: empty resampling distribution"
              | some out =>
                let c := out.getD (i.finalPick % out.length)
                  { name := "", id := 0, weight := 0, distance := 0 }
                .ok (c.name, c.id)
          match nextPlace with
          | .error e => (.error e, st, ctx)
          | .ok np =>
            let ctx1 := { ctx with nextPlace := some np }
            let r := addMobility st
              ("For " ++ i.intention ++ ", selected: " ++ np.1)
            (.ok { success := true,
                   evaluation := "Selected destination: " ++ np.1,
                   consumed_time := 5, node_id := some r.1 }, r.2, ctx1)

/-! ## MoveBlock.forward -/

/-- Inputs of `MoveBlock.forward`.  `placeType` models
`_get_place_type`'s prompt format + LLM call + parse, all inside one
`try:` (a missing `context["plan"]` is also caught there); `randomPoi`
models the `_random_poi` fallback (map `get_aoi`/`get_poi` calls plus the
dict subscriptions `next_place[0]`/`next_place[1]` applied to its result,
which are outside every `try:`). -/
structure MoveInputs where
  placeType : Except PyErr String
  randomPoi : Except PyErr (String × Nat)

/-- `_get_place_type`: the parsed `place_type` on success, `"home"` on any
failure. -/
def getPlaceType (resp : Except PyErr String) : String :=
  match resp with
  | .ok s => s
  | .error _ => "home"

/-- `_stationary_result`. -/
def stationaryResult (placeType : String) (placeId : Nat) : ResultRecord :=
  { success := true, evaluation := "Already at " ++ placeType,
    to_place := some placeId, consumed_time := 0 }

/-- `_mobility_result`. -/
def mobilityResult (desc : String) (placeId : Nat) (time : Int) : ResultRecord :=
  { success := true, evaluation := "Moved to " ++ desc,
    to_place := some placeId, consumed_time := time }

/-- `_increment_poi_counter`. -/
def incrementPoiCounter (st : MobState) : MobState :=
  { st with mem := { st.mem with numberPoiVisited := st.mem.numberPoiVisited + 1 } }

/-- `simulator.set_aoi_schedules(agent_id, aoi_id)`, recorded as issued. -/
def setAoiSchedules (st : MobState) (agentId aoiId : Nat) : MobState :=
  { st with schedules := st.schedules ++ [(agentId, aoiId)] }

/-- `_move_home` (lines 293-303): stationary result when the current
`aoi_id` equals the home id, else schedule the move and bump the visit
counter. -/
def moveHome (agentId : Nat) (st : MobState) :
    Except PyErr ResultRecord × MobState :=
  match st.mem.home with
  | none => (.error "TypeError: home is None", st)
  | some homeId =>
    match st.mem.position with
    | none => (.error "AttributeError: position", st)
    | some posAoi =>
      if posAoi = some homeId then (.ok (stationaryResult "home" homeId), st)
      else
        let st1 := incrementPoiCounter (setAoiSchedules st agentId homeId)
        (.ok (mobilityResult "home" homeId 45), st1)

/-- `_move_work` (lines 305-315). -/
def moveWork (agentId : Nat) (st : MobState) :
    Except PyErr ResultRecord × MobState :=
  match st.mem.work with
  | none => (.error "TypeError: work is None", st)
  | some workId =>
    match st.mem.position with
    | none => (.error "AttributeError: position", st)
    | some posAoi =>
      if posAoi = some workId then (.ok (stationaryResult "workplace" workId), st)
      else
        let st1 := incrementPoiCounter (setAoiSchedules st agentId workId)
        (.ok (mobilityResult "workplace" workId 45), st1)

/-- `_move_custom` (lines 317-325): no stationary check — it always
schedules the move and bumps the counter. -/
def moveCustom (i : MoveInputs) (ctx : Context) (agentId : Nat) (st : MobState) :
    Except PyErr ResultRecord × MobState :=
  let np : Except PyErr (String × Nat) :=
    match ctx.nextPlace with
    | some p => .ok p
    | none => i.randomPoi
  match np with
  | .error e => (.error e, st)
  | .ok p =>
    let st1 := incrementPoiCounter (setAoiSchedules st agentId p.2)
    (.ok (mobilityResult ("destination: " ++ p.1) p.2 45), st1)

/-- `MoveBlock.forward(step, context)` (lines 266-276): no `try:` of its
own — any exception in the three movement helpers propagates. -/
def moveForward (i : MoveInputs) (ctx : Context) (st : MobState) :
    Except PyErr ResultRecord × MobState :=
  let response := getPlaceType i.placeType
  if response = "home" then moveHome st.mem.agentId st
  else if response = "workplace" then moveWork st.mem.agentId st
  else moveCustom i ctx st.mem.agentId st

/-! ## MobilityNoneBlock.forward and the MobilityBlock coordinator -/

/-- `MobilityNoneBlock.forward` (lines 367-377). -/
def mobilityNoneForward (intention : String) (st : MobState) :
    Except PyErr ResultRecord × MobState :=
  let r := addMobility st ("I finished " ++ intention)
  (.ok { success := true, evaluation := "Finished executing " ++ intention,
         consumed_time := 0, node_id := some r.1 }, r.2)

/-- The three sub-blocks registered with the mobility dispatcher. -/
inductive MobSub
  | placeSelection
  | move
  | noneBlock
deriving DecidableEq, Repr

structure MobDispatchIn where
  resp : Except PyErr (Option MobSub)
  pick : Nat

/-- Modelled from the spec: `dispatcher.py` is not under `src/`; spec
§4.4 — oracle-backed choice over the registered blocks with
single-attempt-then-random-fallback, never raising. -/
def dispatchMob (d : MobDispatchIn) : MobSub :=
  match d.resp with
  | .ok (some b) => b
  | _ => [MobSub.placeSelection, MobSub.move, MobSub.noneBlock].getD
           (d.pick % 3) MobSub.noneBlock

structure MobilityBlockIn where
  d : MobDispatchIn
  ps : PSInputs
  mv : MoveInputs

/-- `MobilityBlock.forward(step, context)` (lines 406-415): increment the
trigger counter, dispatch, run the selected sub-block and return its
result — with no `try:`, so a sub-block exception propagates to the
caller. -/
def mobilityBlockForward (i : MobilityBlockIn) (ctx : Context)
    (st : MobState) (trigger : Nat) :
    Except PyErr ResultRecord × MobState × Context × Nat :=
  match dispatchMob i.d with
  | .placeSelection =>
    let r := psForward i.ps ctx st
    (r.1, r.2.1, r.2.2, trigger + 1)
  | .move =>
    let r := moveForward i.mv ctx st
    (r.1, r.2, ctx, trigger + 1)
  | .noneBlock =>
    let r := mobilityNoneForward i.ps.intention st
    (r.1, r.2, ctx, trigger + 1)

/-! ## Helper lemmas about the gravity model -/

theorem ringOf_bounds {dist : ℚ} {d : Nat} (h : ringOf dist = some d) :
    1 ≤ d ∧ d ≤ 10 ∧ ((d - 1 : Nat) : ℚ) * 1000 ≤ dist ∧ dist < (d : ℚ) * 1000 := by
  have hmem := List.mem_of_find?_eq_some h
  have hp := List.find?_some h
  rw [List.mem_range'_1] at hmem
  rw [decide_eq_true_eq] at hp
  exact ⟨hmem.1, by omega, hp.1, hp.2⟩

theorem ringOf_isSome {dist : ℚ} (h0 : 0 ≤ dist) (h1 : dist < 10000) :
    ∃ d, ringOf dist = some d := by
  rw [← Option.isSome_iff_exists, ringOf, List.find?_isSome]
  have hz : (0 : ℤ) ≤ ⌊dist⌋ := Int.floor_nonneg.mpr h0
  set m : ℕ := (⌊dist⌋).toNat with hmdef
  have hml : (m : ℚ) ≤ dist := by
    have h := Int.floor_le dist
    have : ((m : ℤ) : ℚ) ≤ dist := by
      rw [hmdef, Int.toNat_of_nonneg hz]; exact h
    exact_mod_cast this
  have hmu : dist < (m : ℚ) + 1 := by
    have h := Int.lt_floor_add_one dist
    have : dist < ((m : ℤ) : ℚ) + 1 := by
      rw [hmdef, Int.toNat_of_nonneg hz]; exact h
    exact_mod_cast this
  have hm9999 : m ≤ 9999 := by
    by_contra hcon
    push_neg at hcon
    have : (10000 : ℚ) ≤ (m : ℚ) := by exact_mod_cast hcon
    linarith
  refine ⟨m / 1000 + 1, ?_, ?_⟩
  · rw [List.mem_range'_1]
    have : m / 1000 ≤ 9 := by omega
    omega
  · rw [decide_eq_true_eq]
    constructor
    · have hle : (m / 1000) * 1000 ≤ m := Nat.div_mul_le_self m 1000
      have : ((m / 1000 * 1000 : ℕ) : ℚ) ≤ (m : ℚ) := by exact_mod_cast hle
      have heq : (m / 1000 + 1 - 1 : ℕ) = m / 1000 := by omega
      rw [heq]
      push_cast at this ⊢
      linarith
    · have hlt : m < (m / 1000 + 1) * 1000 := by omega
      have : ((m : ℚ) + 1) ≤ (((m / 1000 + 1) * 1000 : ℕ) : ℚ) := by exact_mod_cast hlt
      push_cast at this ⊢
      linarith

theorem gravityRes_weight_pos {piVal : ℚ} (hpi : 0 < piVal)
    {pois : List (POI × ℚ)} {c : Candidate}
    (hc : c ∈ gravityRes piVal pois) : 0 < c.weight := by
  rw [gravityRes, List.mem_filterMap] at hc
  obtain ⟨p, hp, hpc⟩ := hc
  rw [Option.map_eq_some'] at hpc
  obtain ⟨d, hd, hfc⟩ := hpc
  obtain ⟨hd1, hd10, hlo, hhi⟩ := ringOf_bounds hd
  subst hfc
  have hn : (0 : ℚ) < (binCount pois d : ℚ) := by
    have hpm : p ∈ pois.filter (fun q => decide (ringOf q.2 = some d)) :=
      List.mem_filter.mpr ⟨hp, by simp [hd]⟩
    have hlen : 0 < (pois.filter (fun q => decide (ringOf q.2 = some d))).length :=
      List.length_pos.mpr (List.ne_nil_of_mem hpm)
    rw [binCount] at *
    exact_mod_cast hlen
  have hS : (0 : ℚ) < piVal * (((d : ℚ) * 1000) ^ 2 - (((d - 1 : Nat) : ℚ) * 1000) ^ 2) := by
    apply mul_pos hpi
    have hdd : ((d - 1 : Nat) : ℚ) < (d : ℚ) := by
      exact_mod_cast Nat.sub_lt (by omega) one_pos
    have hba : ((d - 1 : Nat) : ℚ) * 1000 < (d : ℚ) * 1000 := by linarith
    have ha : (0 : ℚ) ≤ ((d - 1 : Nat) : ℚ) * 1000 := by positivity
    have h2 : (((d - 1 : Nat) : ℚ) * 1000) ^ 2 < ((d : ℚ) * 1000) ^ 2 :=
      pow_lt_pow_left₀ hba ha two_ne_zero
    linarith
  have hdist : (0 : ℚ) < max p.2 1 := lt_of_lt_of_le one_pos (le_max_right _ _)
  exact div_pos (div_pos hn hS) (by positivity)

theorem sum_map_div {α : Type} (l : List α) (f : α → ℚ) (c : ℚ) :
    (l.map (fun x => f x / c)).sum = (l.map f).sum / c := by
  induction l with
  | nil => simp
  | cons a t ih => simp [ih, add_div]

theorem gravityRes_mem_of_inrange (piVal : ℚ) {pois : List (POI × ℚ)}
    {p : POI × ℚ} (hp : p ∈ pois) (h0 : 0 ≤ p.2) (h1 : p.2 < 10000) :
    ∃ c ∈ gravityRes piVal pois, c.id = p.1.id ∧ c.distance = max p.2 1 := by
  obtain ⟨d, hd⟩ := ringOf_isSome h0 h1
  refine ⟨{ name := p.1.name, id := p.1.id,
            weight := ((binCount pois d : ℚ) /
              (piVal * (((d : ℚ) * 1000) ^ 2 - (((d - 1 : Nat) : ℚ) * 1000) ^ 2))) /
              (max p.2 1) ^ 2,
            distance := max p.2 1 }, ?_, rfl, rfl⟩
  rw [gravityRes, List.mem_filterMap]
  exact ⟨p, hp, by rw [hd]; rfl⟩

/-! ## Claim C2 -/

/-- C2 counterexample: a non-empty candidate list whose single candidate
lies at 10000 m.  It is binned into the overflow bucket, `res` stays
empty, and `np.random.choice(0, ...)` raises `ValueError` — modelled as
`gravity_model` returning `none` — instead of returning a non-empty
weighted list. -/
theorem c2_counterexample :
    ([((⟨"far", 9⟩ : POI), (10000 : ℚ))] : List (POI × ℚ)) ≠ [] ∧
    gravity_model 3 [((⟨"far", 9⟩ : POI), (10000 : ℚ))] (fun _ => 0) = none := by
  constructor
  · simp
  · have hres : gravityRes 3 [((⟨"far", 9⟩ : POI), (10000 : ℚ))] = [] := by
      norm_num [gravityRes, ringOf, List.range']
    rw [gravity_model]
    simp only [hres]
    simp

/-- C2 (amended): for every candidate list containing at least one
candidate at distance in `[0, 10000)` (one that falls into a ring; beyond
that the source raises `ValueError`), `gravity_model` returns — for any
resampling draw — a non-empty list of exactly 50 = sample-size entries
whose weights sum exactly to 1 over rational arithmetic. -/
theorem c2_gravity_model_weights (piVal : ℚ) (pois : List (POI × ℚ))
    (pick : Fin 50 → Nat) (hpi : 0 < piVal)
    (hin : ∃ p ∈ pois, 0 ≤ p.2 ∧ p.2 < 10000) :
    ∃ out, gravity_model piVal pois pick = some out ∧
      out ≠ [] ∧ out.length ≤ 50 ∧ (out.map Candidate.weight).sum = 1 := by
  obtain ⟨p, hp, h0, h1⟩ := hin
  have hres : gravityRes piVal pois ≠ [] := by
    obtain ⟨c, hc, _⟩ := gravityRes_mem_of_inrange piVal hp h0 h1
    exact List.ne_nil_of_mem hc
  rw [gravity_model]
  simp only [dif_neg hres]
  set res := gravityRes piVal pois with hresdef
  set sampled := (List.finRange 50).map (fun i =>
    res.get ⟨pick i % res.length, Nat.mod_lt _ (List.length_pos.mpr hres)⟩)
    with hsampled
  have hlen : sampled.length = 50 := by
    rw [hsampled, List.length_map, List.length_finRange]
  have hpos : ∀ x ∈ sampled.map Candidate.weight, 0 < x := by
    intro x hx
    rw [List.mem_map] at hx
    obtain ⟨c, hc, hcx⟩ := hx
    rw [hsampled, List.mem_map] at hc
    obtain ⟨j, _, hj⟩ := hc
    have : c ∈ res := by rw [← hj]; exact List.get_mem _ _ _
    rw [← hcx]
    exact gravityRes_weight_pos hpi this
  have hne : sampled.map Candidate.weight ≠ [] := by
    intro hcon
    have := congrArg List.length hcon
    rw [List.length_map, hlen] at this
    simp at this
  have htot : 0 < (sampled.map Candidate.weight).sum :=
    List.sum_pos _ hpos hne
  refine ⟨_, rfl, ?_, ?_, ?_⟩
  · intro hcon
    have := congrArg List.length hcon
    rw [List.length_map, hlen] at this
    simp at this
  · rw [List.length_map, hlen]
  · rw [List.map_map]
    have hcomp : (Candidate.weight ∘ fun c : Candidate =>
        { c with weight := c.weight / (sampled.map Candidate.weight).sum }) =
        fun c : Candidate => c.weight / (sampled.map Candidate.weight).sum := rfl
    rw [hcomp, sum_map_div]
    exact div_self (ne_of_gt htot)

/-- C2 witness: the amended theorem applied at a concrete one-candidate
list at distance 500. -/
theorem c2_witness :
    (0 : ℚ) < 3 ∧
    (∃ p ∈ ([((⟨"shop", 1⟩ : POI), (500 : ℚ))] : List (POI × ℚ)),
      0 ≤ p.2 ∧ p.2 < 10000) ∧
    (∃ out, gravity_model 3 [((⟨"shop", 1⟩ : POI), (500 : ℚ))] (fun _ => 0) = some out ∧
      out ≠ [] ∧ out.length ≤ 50 ∧ (out.map Candidate.weight).sum = 1) :=
  ⟨by norm_num,
   ⟨((⟨"shop", 1⟩ : POI), (500 : ℚ)), by simp, by norm_num, by norm_num⟩,
   c2_gravity_model_weights 3 _ _ (by norm_num)
     ⟨((⟨"shop", 1⟩ : POI), (500 : ℚ)), by simp, by norm_num, by norm_num⟩⟩

/-! ## Claim C3 -/

/-- C3 counterexample: with one candidate at 500 m and one at 15000 m, the
list `res` from which the resampling draw is made (and with it the
parallel `distanceProb` array) contains only the near candidate: the
second pass of `gravity_model` skips every candidate that matches no ring,
so the ≥ 10 km candidate gets no resampling probability at all and can
never be drawn into the returned subset. -/
theorem c3_counterexample :
    (gravityRes 3 [((⟨"near", 1⟩ : POI), (500 : ℚ)),
                   ((⟨"far", 2⟩ : POI), (15000 : ℚ))]).map Candidate.id = [1] := by
  have h1 : ringOf 500 = some 1 := by norm_num [ringOf, List.range']
  have h2 : ringOf 15000 = none := by norm_num [ringOf, List.range']
  simp [gravityRes, List.filterMap_cons, h1, h2]

/-- C3 (amended): every candidate at distance in `[0, 10000)` enters the
resampling pool `res` (and so is eligible for the draw, the source giving
each pool entry the positive probability `1/sqrt(distance)` after
normalization), but a candidate at distance `≥ 10 km` — though bucketed
into the overflow `'more'` bin — is excluded from the pool: every pool
entry, and hence every entry of any returned subset, stems from a
candidate at distance in `[0, 10000)`. -/
theorem c3_overflow_excluded (piVal : ℚ) (pois : List (POI × ℚ)) :
    (∀ p ∈ pois, 0 ≤ p.2 → p.2 < 10000 →
      ∃ c ∈ gravityRes piVal pois, c.id = p.1.id ∧ c.distance = max p.2 1) ∧
    (∀ c ∈ gravityRes piVal pois,
      ∃ p ∈ pois, c.id = p.1.id ∧ 0 ≤ p.2 ∧ p.2 < 10000) ∧
    (∀ pick out, gravity_model piVal pois pick = some out →
      ∀ c ∈ out, ∃ c0 ∈ gravityRes piVal pois, c.id = c0.id) := by
  refine ⟨fun p hp h0 h1 => gravityRes_mem_of_inrange piVal hp h0 h1, ?_, ?_⟩
  · intro c hc
    rw [gravityRes, List.mem_filterMap] at hc
    obtain ⟨p, hp, hpc⟩ := hc
    rw [Option.map_eq_some'] at hpc
    obtain ⟨d, hd, hfc⟩ := hpc
    obtain ⟨hd1, hd10, hlo, hhi⟩ := ringOf_bounds hd
    refine ⟨p, hp, by rw [← hfc], ?_, ?_⟩
    · have : (0 : ℚ) ≤ ((d - 1 : Nat) : ℚ) * 1000 := by positivity
      linarith
    · have : ((d : ℚ)) ≤ 10 := by exact_mod_cast hd10
      nlinarith
  · intro pick out hout c hc
    rw [gravity_model] at hout
    by_cases hres : gravityRes piVal pois = []
    · simp only [dif_pos hres] at hout
      exact absurd hout (by simp)
    · simp only [dif_neg hres] at hout
      injection hout with hout
      rw [← hout] at hc
      rw [List.mem_map] at hc
      obtain ⟨c0, hc0, hcc⟩ := hc
      rw [List.mem_map] at hc0
      obtain ⟨j, _, hj⟩ := hc0
      refine ⟨c0, by rw [← hj]; exact List.get_mem _ _ _, by rw [← hcc]⟩

/-- C3 witness: the amended theorem applied at the two-candidate input
of the counterexample. -/
theorem c3_witness :
    ∃ c ∈ gravityRes 3 [((⟨"near", 1⟩ : POI), (500 : ℚ)),
                        ((⟨"far", 2⟩ : POI), (15000 : ℚ))],
      c.id = 1 ∧ c.distance = max (500 : ℚ) 1 :=
  (c3_overflow_excluded 3 _).1 ((⟨"near", 1⟩ : POI), (500 : ℚ))
    (by simp) (by norm_num) (by norm_num)

/-! ## Claim C6 -/

/-- C6 counterexample: when the radius oracle call succeeds with the
(perfectly parseable) reply `{"radius": 500}`, the radius used for the
map query is 500 — neither inside `[3000, 200000]` nor the default
10000: the source applies no range validation to the parsed value, the
interval only appears in the prompt text. -/
theorem c6_counterexample :
    radiusStage (.ok 500) = 500 ∧
    ¬((3000 : Int) ≤ radiusStage (.ok 500) ∧ radiusStage (.ok 500) ≤ 200000) ∧
    radiusStage (.ok 500) ≠ 10000 := by
  refine ⟨rfl, ?_, ?_⟩ <;> decide

/-- C6 (amended): the travel radius passed to the map-service query is
exactly `radiusStage` of the oracle response: the parsed integer whenever
the call and parse succeed — with no `[3000, 200000]` range check — and
exactly 10000 when the call or parse fails.  The first conjunct shows
`psForward` consults the map service only at that radius: replacing the
map-service response function by any function agreeing with it at radius
`radiusStage i.radius` leaves the entire forward result unchanged. -/
theorem c6_query_radius (i : PSInputs) (ctx : Context) (st : MobState)
    (q : String → Int → Except PyErr (List (POI × ℚ)))
    (hq : ∀ cat, q cat (radiusStage i.radius) = i.mapQuery cat (radiusStage i.radius)) :
    psForward { i with mapQuery := q } ctx st = psForward i ctx st ∧
    (∀ n, i.radius = .ok n → radiusStage i.radius = n) ∧
    (∀ e, i.radius = .error e → radiusStage i.radius = 10000) := by
  refine ⟨?_, ?_, ?_⟩
  · obtain ⟨int, pc, s1, p1, s2, p2, rad, mq, piv, gp, fp, ap, fbp⟩ := i
    dsimp only at hq ⊢
    unfold psForward
    dsimp only
    cases ctx.plan with
    | none => rfl
    | some pl =>
      cases hcat : psCategory ⟨int, pc, s1, p1, s2, p2, rad, mq, piv, gp, fp, ap, fbp⟩ with
      | error e =>
        have hcat2 : psCategory ⟨int, pc, s1, p1, s2, p2, rad, q, piv, gp, fp, ap, fbp⟩ =
            .error e := hcat
        rw [hcat2]
      | ok lv2 =>
        have hcat2 : psCategory ⟨int, pc, s1, p1, s2, p2, rad, q, piv, gp, fp, ap, fbp⟩ =
            .ok lv2 := hcat
        rw [hcat2]
        cases st.mem.position with
        | none => rfl
        | some pos =>
          dsimp only
          rw [hq lv2]
  · intro n hn; rw [hn]; rfl
  · intro e he; rw [he]; rfl

/-- C6 witness: the amended theorem applied at a concrete input whose
radius oracle replies 500. -/
theorem c6_witness :
    (∀ n, (Except.ok 500 : Except PyErr Int) = .ok n →
      radiusStage (.ok 500) = n) ∧ radiusStage (.ok 500) = 500 :=
  ⟨(c6_query_radius
      { intention := "go shopping", poiCate := [], stage1 := .error "down",
        pick1 := 0, stage2 := .error "down", pick2 := 0, radius := .ok 500,
        mapQuery := fun _ _ => .ok [], piVal := 3, gravityPick := fun _ => 0,
        finalPick := 0, allPois := .ok [], fallbackPick := 0 }
      {} { mem := { agentId := 0, home := none, work := none,
                    position := some none, numberPoiVisited := 0 },
           stream := [], schedules := [] }
      (fun _ _ => .ok []) (fun _ => rfl)).2.1,
   rfl⟩

/-! ## Helper lemmas about the social blocks -/

/-- `FindPersonBlock.forward` always returns a well-formed result (its
outer `except` converts every failure), and a successful result always
carries a target. -/
theorem findPerson_shape (i : FPInputs) (ctx : Option Context) (st : SocState) :
    ∃ rec st1 ctx1, findPersonForward i ctx st = (.ok rec, st1, ctx1) ∧
      (rec.success = true → ∃ t, rec.target = some t) := by
  unfold findPersonForward
  cases st.mem.friends with
  | nil => exact ⟨_, _, _, rfl, by intro h; simp at h⟩
  | cons f0 rest =>
    cases i.resp with
    | error e => exact ⟨_, _, _, rfl, by intro h; simp at h⟩
    | ok parsed => exact ⟨_, _, _, rfl, fun _ => ⟨_, rfl⟩⟩

/-- The post-target-resolution path of `MessageBlock.forward` always
returns a well-formed result. -/
theorem msgCore_ok (i : MsgInputs) (t : String) (ctx : Option Context)
    (st : SocState) :
    ∃ rec st1 ctx1, msgCore i t ctx st = (.ok rec, st1, ctx1) := by
  unfold msgCore msgExceptPath
  cases st.mem.attitude with
  | none => exact ⟨_, _, _, rfl⟩
  | some ats =>
    cases i.genResp with
    | error e => exact ⟨_, _, _, rfl⟩
    | ok raw =>
      cases i.sendResp with
      | error e => exact ⟨_, _, _, rfl⟩
      | ok u => exact ⟨_, _, _, rfl⟩

/-- `MessageBlock.forward` always returns a well-formed result. -/
theorem messageForward_ok (i : MsgInputs) (ctx : Option Context) (st : SocState) :
    ∃ rec st1 ctx1, messageForward i ctx st = (.ok rec, st1, ctx1) := by
  have hfp := findPerson_shape i.fp ctx st
  obtain ⟨rec, st1, ctx1, heq, htgt⟩ := hfp
  have hviafp : ∃ rec2 st2 ctx2,
      (match findPersonForward i.fp ctx st with
       | (.ok rec, st1, ctx1) =>
         if rec.success then
           match rec.target with
           | some t1 => msgCore i t1 ctx1 st1
           | none => (.error "NameError: target", st1, ctx1)
         else
           (.ok { success := false, evaluation := "Could not find target for message",
                  consumed_time := 5, node_id := rec.node_id }, st1, ctx1)
       | (.error _, st1, ctx1) => msgExceptPath "find person raised" "None" ctx1 st1) =
      (.ok rec2, st2, ctx2) := by
    rw [heq]
    dsimp only
    by_cases hs : rec.success
    · obtain ⟨t1, ht1⟩ := htgt hs
      rw [if_pos hs, ht1]
      exact msgCore_ok i t1 ctx1 st1
    · rw [if_neg hs]
      exact ⟨_, _, _, rfl⟩
  unfold messageForward
  cases ctx with
  | none => dsimp only; exact hviafp
  | some c =>
    dsimp only
    cases c.target with
    | none => exact hviafp
    | some t =>
      dsimp only
      by_cases ht : t = ""
      · rw [if_pos ht]
        exact hviafp
      · rw [if_neg ht]
        exact msgCore_ok i t (some c) st

theorem dictGet_dictSet_self {α : Type} (l : List (String × α)) (k : String) (v : α) :
    dictGet (dictSet l k v) k = some v := by
  induction l with
  | nil => simp [dictSet, dictGet]
  | cons kv rest ih =>
    by_cases h : kv.1 = k
    · simp [dictSet, dictGet, h]
    · simp [dictSet, dictGet, h, ih]

theorem dictGet_dictSet_ne {α : Type} (l : List (String × α)) (k k' : String)
    (v : α) (h : k' ≠ k) :
    dictGet (dictSet l k v) k' = dictGet l k' := by
  induction l with
  | nil => simp [dictSet, dictGet, Ne.symm h]
  | cons kv rest ih =>
    by_cases hk : kv.1 = k
    · subst hk
      simp [dictSet, dictGet, Ne.symm h]
    · simp only [dictSet, if_neg hk]
      by_cases hk' : kv.1 = k'
      · simp [dictGet, hk']
      · simp [dictGet, hk', ih]

/-! ## Claim C1 -/

/-- C1 counterexample: `SocialNoneBlock.forward` issues its LLM request at
line 101, *outside* the `try:` that begins at line 105.  When that call
raises, the exception propagates to the caller, no `success:false`
ResultRecord is produced, and no failure narration is appended (the
returned state still has an empty stream). -/
theorem c1_counterexample :
    socialNoneForward { intention := "gossip", timeResp := .error "LLM timeout" }
      (some { plan := some "relax all day" })
      { mem := { friends := [], relationships := [], chatHistories := [],
                 attitude := some [] }, stream := [] } =
    (.error "LLM timeout",
     { mem := { friends := [], relationships := [], chatHistories := [],
                attitude := some [] }, stream := [] }) := rfl

/-- C1 (amended): the never-propagate contract holds for
`FindPersonBlock.forward` and `MessageBlock.forward`, whose bodies are
wrapped whole in `try:`/`except:`; it fails for the remaining blocks,
whose `forward`s run key parts outside any `try:`.  `SocialNoneBlock` in
particular catches only the JSON-parse stage: a parse failure yields a
`success:false` record with a failure narration appended, while the LLM
call itself (and the `context["plan"]` read) propagates, as in the
counterexample. -/
theorem c1_error_handling :
    (∀ i ctx st, ∃ rec st1 ctx1,
      findPersonForward i ctx st = (.ok rec, st1, ctx1)) ∧
    (∀ i ctx st, ∃ rec st1 ctx1,
      messageForward i ctx st = (.ok rec, st1, ctx1)) ∧
    (∀ (i : SNInputs) (c : Context) (st : SocState) (pl : String),
      i.timeResp = .ok none → c.plan = some pl →
      socialNoneForward i (some c) st =
        (.ok { success := false,
               evaluation := "Failed to execute " ++ i.intention,
               consumed_time := 5, node_id := some st.stream.length },
         { st with stream := st.stream ++
             ["I failed to execute " ++ i.intention] })) := by
  refine ⟨?_, ?_, ?_⟩
  · intro i ctx st
    obtain ⟨rec, st1, ctx1, heq, _⟩ := findPerson_shape i ctx st
    exact ⟨rec, st1, ctx1, heq⟩
  · exact messageForward_ok
  · intro i c st pl htime hplan
    unfold socialNoneForward
    dsimp only
    rw [hplan, htime]
    rfl

/-- C1 witness: the third conjunct applied at a concrete parse failure. -/
theorem c1_witness :
    socialNoneForward { intention := "gossip", timeResp := .ok none }
      (some { plan := some "relax all day" })
      { mem := { friends := [], relationships := [], chatHistories := [],
                 attitude := some [] }, stream := [] } =
    (.ok { success := false, evaluation := "Failed to execute gossip",
           consumed_time := 5, node_id := some 0 },
     { mem := { friends := [], relationships := [], chatHistories := [],
                attitude := some [] }, stream := ["I failed to execute gossip"] }) :=
  c1_error_handling.2.2 { intention := "gossip", timeResp := .ok none }
    { plan := some "relax all day" }
    { mem := { friends := [], relationships := [], chatHistories := [],
               attitude := some [] }, stream := [] }
    "relax all day" rfl rfl

/-! ## Claim C4 -/

/-- C4 counterexample: `MobilityBlock.forward` wraps nothing in
`try:`/`except:`.  Dispatching to `MoveBlock` with the `home` status
missing makes `_move_home` raise, and the exception propagates out of the
coordinator instead of being converted into a `success:false` record. -/
theorem c4_counterexample :
    mobilityBlockForward
      { d := { resp := .ok (some .move), pick := 0 },
        ps := { intention := "go home", poiCate := [], stage1 := .error "x",
                pick1 := 0, stage2 := .error "x", pick2 := 0,
                radius := .error "x", mapQuery := fun _ _ => .ok [],
                piVal := 3, gravityPick := fun _ => 0, finalPick := 0,
                allPois := .ok [], fallbackPick := 0 },
        mv := { placeType := .ok "home", randomPoi := .error "unused" } }
      { plan := some "p" }
      { mem := { agentId := 1, home := none, work := some 3,
                 position := some (some 5), numberPoiVisited := 0 },
        stream := [], schedules := [] } 0 =
    (.error "TypeError: home is None",
     { mem := { agentId := 1, home := none, work := some 3,
                position := some (some 5), numberPoiVisited := 0 },
       stream := [], schedules := [] },
     { plan := some "p" }, 1) := rfl

/-- C4 (amended): `SocialBlock.forward` does catch every dispatch and
sub-block failure, always returning a well-formed `.ok` record (the
handler's uniform record when the sub-block raised) with its trigger
counter incremented; `MobilityBlock.forward` has no handler and
propagates sub-block exceptions, as in the counterexample. -/
theorem c4_coordinator_catch (i : SocialBlockIn) (ctx : Option Context)
    (st : SocState) (tr : Nat) :
    ∃ rec st1 ctx1, socialBlockForward i ctx st tr = (.ok rec, st1, ctx1, tr + 1) := by
  unfold socialBlockForward
  cases hd : dispatchSoc i.d with
  | findPerson =>
    obtain ⟨rec, st1, ctx1, heq, _⟩ := findPerson_shape i.fp ctx st
    rw [heq]
    exact ⟨rec, st1, ctx1, rfl⟩
  | message =>
    obtain ⟨rec, st1, ctx1, heq⟩ := messageForward_ok i.msg ctx st
    rw [heq]
    exact ⟨rec, st1, ctx1, rfl⟩
  | noneBlock =>
    rcases hsn : socialNoneForward i.sn ctx st with ⟨r, st1⟩
    cases r with
    | ok rec => exact ⟨rec, st1, ctx, rfl⟩
    | error e => exact ⟨_, st1, ctx, rfl⟩

/-! ## Claim C5 -/

/-- C5 counterexample: relocation to an "other" destination while already
there.  The context carries `next_place = ("Cafe X", 7)` and the agent's
current `aoi_id` is already 7, yet `_move_custom` — which has no
already-there check — still issues `set_aoi_schedules(1, 7)`, increments
the visit counter and returns `consumed_time = 45`, not 0. -/
theorem c5_counterexample :
    moveForward { placeType := .ok "other", randomPoi := .error "unused" }
      { plan := some "p", nextPlace := some ("Cafe X", 7) }
      { mem := { agentId := 1, home := some 2, work := some 3,
                 position := some (some 7), numberPoiVisited := 0 },
        stream := [], schedules := [] } =
    (.ok (mobilityResult "destination: Cafe X" 7 45),
     { mem := { agentId := 1, home := some 2, work := some 3,
                position := some (some 7), numberPoiVisited := 1 },
       stream := [], schedules := [(1, 7)] }) ∧
    (mobilityResult "destination: Cafe X" 7 45).consumed_time = 45 := ⟨rfl, rfl⟩

/-- C5 (amended): the already-there short-circuit — `consumed_time = 0`,
no `set_aoi_schedules` call, no counter increment, state returned
untouched — holds for the `home` and `workplace` destination kinds; the
`other` kind (`_move_custom`) has no such check and always schedules and
increments (counterexample). -/
theorem c5_stationary (i : MoveInputs) (ctx : Context) (st : MobState) (aoi : Nat) :
    (getPlaceType i.placeType = "home" → st.mem.home = some aoi →
      st.mem.position = some (some aoi) →
      moveForward i ctx st = (.ok (stationaryResult "home" aoi), st)) ∧
    (getPlaceType i.placeType = "workplace" → st.mem.work = some aoi →
      st.mem.position = some (some aoi) →
      moveForward i ctx st = (.ok (stationaryResult "workplace" aoi), st)) := by
  constructor
  · intro hp hh hpos
    unfold moveForward
    rw [hp]
    simp only [if_pos rfl]
    unfold moveHome
    rw [hh, hpos]
    simp
  · intro hp hw hpos
    unfold moveForward
    rw [hp]
    have hne : ("workplace" : String) ≠ "home" := by decide
    rw [if_neg hne, if_pos rfl]
    unfold moveWork
    rw [hw, hpos]
    simp

/-- C5 witness: both stationary cases at concrete states. -/
theorem c5_witness :
    moveForward { placeType := .ok "home", randomPoi := .error "unused" }
      { plan := some "p" }
      { mem := { agentId := 1, home := some 2, work := some 3,
                 position := some (some 2), numberPoiVisited := 0 },
        stream := [], schedules := [] } =
      (.ok (stationaryResult "home" 2),
       { mem := { agentId := 1, home := some 2, work := some 3,
                  position := some (some 2), numberPoiVisited := 0 },
         stream := [], schedules := [] }) ∧
    moveForward { placeType := .ok "workplace", randomPoi := .error "unused" }
      { plan := some "p" }
      { mem := { agentId := 1, home := some 2, work := some 3,
                 position := some (some 3), numberPoiVisited := 0 },
        stream := [], schedules := [] } =
      (.ok (stationaryResult "workplace" 3),
       { mem := { agentId := 1, home := some 2, work := some 3,
                  position := some (some 3), numberPoiVisited := 0 },
         stream := [], schedules := [] }) :=
  ⟨(c5_stationary { placeType := .ok "home", randomPoi := .error "unused" }
      { plan := some "p" }
      { mem := { agentId := 1, home := some 2, work := some 3,
                 position := some (some 2), numberPoiVisited := 0 },
        stream := [], schedules := [] } 2).1 rfl rfl rfl,
   (c5_stationary { placeType := .ok "workplace", randomPoi := .error "unused" }
      { plan := some "p" }
      { mem := { agentId := 1, home := some 2, work := some 3,
                 position := some (some 3), numberPoiVisited := 0 },
        stream := [], schedules := [] } 3).2 rfl rfl rfl⟩

/-! ## Claim C7 -/

/-- C7 counterexample: the oracle reply fails validation (`eval` raised,
modelled as `.ok none`) with friends `["alice", "bob"]` and relationship
scores `alice:50, bob:80`.  The fallback does pick `bob` (highest score)
with mode `online` — but the returned context is the *unchanged* input
context with `target = none`: the `context["target"] = target` write at
line 251 sits inside the inner `try:` and is never executed on the
fallback path. -/
theorem c7_counterexample :
    findPersonForward { intention := "hang out", resp := .ok none }
      (some { plan := some "p" })
      { mem := { friends := ["alice", "bob"],
                 relationships := [("alice", 50), ("bob", 80)],
                 chatHistories := [], attitude := some [] }, stream := [] } =
    (.ok { success := true,
           evaluation := "Selected friend bob for online interaction",
           consumed_time := 15, mode := some "online", target := some "bob",
           node_id := some 0 },
     { mem := { friends := ["alice", "bob"],
                relationships := [("alice", 50), ("bob", 80)],
                chatHistories := [], attitude := some [] },
       stream := ["I selected the friend bob for online interaction"] },
     some { plan := some "p" }) ∧
    (({ plan := some "p" } : Context)).target = none := ⟨rfl, rfl⟩

/-- C7 (amended): on any validation failure (unparsable reply, invalid
mode, or index out of range) with a non-empty friends list, the fallback
deterministically returns a success record whose target is the first
highest-scored entry of the relationships mapping (the first friend when
no scores exist) and whose mode is `online` — but it does *not* write the
chosen contact into the context, which is returned unchanged. -/
theorem c7_fallback (i : FPInputs) (ctx : Option Context) (st : SocState)
    (f0 : String) (rest : List String) (hf : st.mem.friends = f0 :: rest)
    (hbad : i.resp = .ok none ∨ ∃ m idx, i.resp = .ok (some (m, idx)) ∧
      ¬((m = "online" ∨ m = "offline") ∧ 0 ≤ idx ∧ idx < (f0 :: rest).length)) :
    findPersonForward i ctx st =
      (.ok { success := true,
             evaluation := "Selected friend " ++
               fpFallbackTarget st.mem.relationships f0 ++ " for " ++ "online" ++
               " interaction",
             consumed_time := 15, mode := some "online",
             target := some (fpFallbackTarget st.mem.relationships f0),
             node_id := some st.stream.length },
       { st with stream := st.stream ++
           ["I selected the friend " ++ fpFallbackTarget st.mem.relationships f0 ++
            " for " ++ "online" ++ " interaction"] }, ctx) := by
  unfold findPersonForward
  rw [hf]
  rcases hbad with hnone | ⟨m, idx, hsome, hcond⟩
  · rw [hnone]
    rfl
  · rw [hsome]
    dsimp only
    rw [if_neg hcond]
    rfl

/-- C7 witness: the amended theorem applied at the counterexample input
with an out-of-range index reply. -/
theorem c7_witness :
    findPersonForward { intention := "hang out", resp := .ok (some ("online", 5)) }
      (some { plan := some "p" })
      { mem := { friends := ["alice", "bob"],
                 relationships := [("alice", 50), ("bob", 80)],
                 chatHistories := [], attitude := some [] }, stream := [] } =
    (.ok { success := true,
           evaluation := "Selected friend " ++
             fpFallbackTarget [("alice", 50), ("bob", 80)] "alice" ++
             " for " ++ "online" ++ " interaction",
           consumed_time := 15, mode := some "online",
           target := some (fpFallbackTarget [("alice", 50), ("bob", 80)] "alice"),
           node_id := some 0 },
     { mem := { friends := ["alice", "bob"],
                relationships := [("alice", 50), ("bob", 80)],
                chatHistories := [], attitude := some [] },
       stream := ["I selected the friend " ++
         fpFallbackTarget [("alice", 50), ("bob", 80)] "alice" ++
         " for " ++ "online" ++ " interaction"] },
     some { plan := some "p" }) :=
  c7_fallback { intention := "hang out", resp := .ok (some ("online", 5)) }
    (some { plan := some "p" })
    { mem := { friends := ["alice", "bob"],
               relationships := [("alice", 50), ("bob", 80)],
               chatHistories := [], attitude := some [] }, stream := [] }
    "alice" ["bob"] rfl
    (Or.inr ⟨"online", 5, rfl, by decide⟩)

/-! ## Claim C8 -/

/-- C8 counterexample: the target is already resolved from the context
(`bob`), but the message-generation LLM call raises.  The outer handler
returns a `success:false` record and *zero* chat-history entries are
appended — the memory status is returned unchanged — contradicting
"exactly one entry per call regardless of whether the overall call
succeeds or fails". -/
theorem c8_counterexample :
    messageForward
      { intention := "say hi", fp := { intention := "say hi", resp := .ok none },
        genResp := .error "timeout", sendResp := .ok () }
      (some { plan := some "p", target := some "bob" })
      { mem := { friends := ["bob"], relationships := [("bob", 80)],
                 chatHistories := [], attitude := some [] }, stream := [] } =
    (.ok { success := false, evaluation := "Error in sending message: timeout",
           consumed_time := 5, node_id := some 0 },
     { mem := { friends := ["bob"], relationships := [("bob", 80)],
                chatHistories := [], attitude := some [] },
       stream := ["I cannot send a message to bob"] },
     some { plan := some "p", target := some "bob" }) := rfl

/-- C8 (amended): once the target is resolved and the generation call
returns text, exactly one chat-history entry is appended for that target
— the target's history becomes `appendChat` of the old one, every other
key is untouched — and this holds whether the subsequent transport send
succeeds or fails; when prompt building or generation raises beforehand,
however, zero entries are appended (counterexample). -/
theorem c8_single_append (i : MsgInputs) (c : Context) (st : SocState)
    (t : String) (ats : List String) (s : String)
    (ht : c.target = some t) (hne : t ≠ "") (hat : st.mem.attitude = some ats)
    (hgen : i.genResp = .ok s) :
    (messageForward i (some c) st).2.1.mem.chatHistories =
      dictSet st.mem.chatHistories t
        (appendChat (dictGet st.mem.chatHistories t)
          (if s = "" then "Hello! How are you?" else s)) ∧
    dictGet (messageForward i (some c) st).2.1.mem.chatHistories t =
      some (appendChat (dictGet st.mem.chatHistories t)
        (if s = "" then "Hello! How are you?" else s)) ∧
    (∀ k, k ≠ t → dictGet (messageForward i (some c) st).2.1.mem.chatHistories k =
      dictGet st.mem.chatHistories k) := by
  have hch : (messageForward i (some c) st).2.1.mem.chatHistories =
      dictSet st.mem.chatHistories t
        (appendChat (dictGet st.mem.chatHistories t)
          (if s = "" then "Hello! How are you?" else s)) := by
    obtain ⟨⟨fr, rel, ch, att⟩, stm⟩ := st
    dsimp only at hat ⊢
    subst hat
    unfold messageForward
    dsimp only
    rw [ht]
    dsimp only
    rw [if_neg hne]
    unfold msgCore
    dsimp only
    rw [hgen]
    dsimp only
    cases i.sendResp with
    | error e => rfl
    | ok u => rfl
  refine ⟨hch, ?_, ?_⟩
  · rw [hch, dictGet_dictSet_self]
  · intro k hk
    rw [hch, dictGet_dictSet_ne _ _ _ _ hk]

/-- C8 witness: the amended theorem at a concrete state with an existing
history for `bob` and a failing transport send. -/
theorem c8_witness :
    dictGet (messageForward
      { intention := "say hi", fp := { intention := "say hi", resp := .ok none },
        genResp := .ok "hello bob", sendResp := .error "network down" }
      (some { plan := some "p", target := some "bob" })
      { mem := { friends := ["bob"], relationships := [("bob", 80)],
                 chatHistories := [("bob", "me: yo")], attitude := some [] },
        stream := [] }).2.1.mem.chatHistories "bob" =
    some (appendChat (dictGet [("bob", "me: yo")] "bob")
      (if ("hello bob" : String) = "" then "Hello! How are you?" else "hello bob")) :=
  (c8_single_append
    { intention := "say hi", fp := { intention := "say hi", resp := .ok none },
      genResp := .ok "hello bob", sendResp := .error "network down" }
    { plan := some "p", target := some "bob" }
    { mem := { friends := ["bob"], relationships := [("bob", 80)],
               chatHistories := [("bob", "me: yo")], attitude := some [] },
      stream := [] }
    "bob" [] "hello bob" rfl (by decide) rfl rfl).2.1

/-! ## Claim C10 -/

/-- C10: `MessageBlock.forward` updates the target's chat history in the
memory status *before* attempting the transport send; when
`send_message_to_agent` raises, the call returns a `success:false` record
while the appended entry remains in the store — the mutation is not
rolled back. -/
theorem c10_append_survives_send_failure (i : MsgInputs) (c : Context)
    (st : SocState) (t : String) (ats : List String) (s e : String)
    (ht : c.target = some t) (hne : t ≠ "") (hat : st.mem.attitude = some ats)
    (hgen : i.genResp = .ok s) (hsend : i.sendResp = .error e) :
    messageForward i (some c) st =
      (.ok { success := false, evaluation := "Error in sending message: " ++ e,
             consumed_time := 5, node_id := some st.stream.length },
       { mem := { st.mem with
                  chatHistories := dictSet st.mem.chatHistories t
                    (appendChat (dictGet st.mem.chatHistories t)
                      (if s = "" then "Hello! How are you?" else s)) },
         stream := st.stream ++ ["I cannot send a message to " ++ t] },
       some c) := by
  obtain ⟨⟨fr, rel, ch, att⟩, stm⟩ := st
  dsimp only at hat ⊢
  subst hat
  unfold messageForward
  dsimp only
  rw [ht]
  dsimp only
  rw [if_neg hne]
  unfold msgCore
  dsimp only
  rw [hgen, hsend]
  rfl

/-- C10 witness: the theorem at the concrete failing-send input. -/
theorem c10_witness :
    messageForward
      { intention := "say hi", fp := { intention := "say hi", resp := .ok none },
        genResp := .ok "hello", sendResp := .error "network down" }
      (some { plan := some "p", target := some "bob" })
      { mem := { friends := ["bob"], relationships := [("bob", 80)],
                 chatHistories := [], attitude := some [] }, stream := [] } =
    (.ok { success := false,
           evaluation := "Error in sending message: " ++ "network down",
           consumed_time := 5, node_id := some 0 },
     { mem := { friends := ["bob"], relationships := [("bob", 80)],
                chatHistories := dictSet [] "bob"
                  (appendChat (dictGet [] "bob")
                    (if ("hello" : String) = "" then "Hello! How are you?" else "hello")),
                attitude := some [] },
       stream := ["I cannot send a message to " ++ "bob"] },
     some { plan := some "p", target := some "bob" }) :=
  c10_append_survives_send_failure
    { intention := "say hi", fp := { intention := "say hi", resp := .ok none },
      genResp := .ok "hello", sendResp := .error "network down" }
    { plan := some "p", target := some "bob" }
    { mem := { friends := ["bob"], relationships := [("bob", 80)],
               chatHistories := [], attitude := some [] }, stream := [] }
    "bob" [] "hello" "network down" rfl (by decide) rfl rfl rfl

/-! ## Helper lemmas for consumed_time bounds -/

/-- The oracle's parsed `time` field is non-negative (the hypothesis under
which `SocialNoneBlock`'s success path keeps `consumed_time ≥ 0`). -/
def SNTimeOk (i : SNInputs) : Prop :=
  match i.timeResp with
  | .ok (some t) => 0 ≤ t
  | _ => True

theorem time_nonneg_sn (i : SNInputs) (ctx : Option Context) (st : SocState)
    (rec : ResultRecord) (hok : SNTimeOk i)
    (h : (socialNoneForward i ctx st).1 = .ok rec) : 0 ≤ rec.consumed_time := by
  unfold socialNoneForward at h
  cases ctx with
  | none => simp at h
  | some c =>
    dsimp only at h
    cases hp : c.plan with
    | none => rw [hp] at h; simp at h
    | some pl =>
      rw [hp] at h
      cases htr : i.timeResp with
      | error e => rw [htr] at h; simp at h
      | ok o =>
        rw [htr] at h
        unfold SNTimeOk at hok
        rw [htr] at hok
        cases o with
        | some t =>
          dsimp only at h hok
          injection h with h
          rw [← h]
          exact hok
        | none =>
          dsimp only at h
          injection h with h
          rw [← h]
          norm_num

theorem time_nonneg_fp (i : FPInputs) (ctx : Option Context) (st : SocState)
    (rec : ResultRecord)
    (h : (findPersonForward i ctx st).1 = .ok rec) : 0 ≤ rec.consumed_time := by
  unfold findPersonForward at h
  cases hf : st.mem.friends with
  | nil =>
    rw [hf] at h
    dsimp only at h
    injection h with h
    rw [← h]
    norm_num
  | cons f0 rest =>
    rw [hf] at h
    cases hr : i.resp with
    | error e =>
      rw [hr] at h
      dsimp only at h
      injection h with h
      rw [← h]
      norm_num
    | ok parsed =>
      rw [hr] at h
      dsimp only at h
      injection h with h
      rw [← h]
      norm_num

theorem time_nonneg_msg (i : MsgInputs) (ctx : Option Context) (st : SocState)
    (rec : ResultRecord)
    (h : (messageForward i ctx st).1 = .ok rec) : 0 ≤ rec.consumed_time := by
  have hcore : ∀ (t : String) (c1 : Option Context) (s1 : SocState),
      (msgCore i t c1 s1).1 = .ok rec → 0 ≤ rec.consumed_time := by
    intro t c1 s1 hc
    unfold msgCore msgExceptPath at hc
    cases ha : s1.mem.attitude with
    | none =>
      rw [ha] at hc
      dsimp only at hc
      injection hc with hc
      rw [← hc]
      norm_num
    | some ats =>
      rw [ha] at hc
      cases hg : i.genResp with
      | error e =>
        rw [hg] at hc
        dsimp only at hc
        injection hc with hc
        rw [← hc]
        norm_num
      | ok raw =>
        rw [hg] at hc
        cases hsd : i.sendResp with
        | error e =>
          rw [hsd] at hc
          dsimp only at hc
          injection hc with hc
          rw [← hc]
          norm_num
        | ok u =>
          rw [hsd] at hc
          dsimp only at hc
          injection hc with hc
          rw [← hc]
          norm_num
  obtain ⟨rec0, st0, ctx0, heq, htgt⟩ := findPerson_shape i.fp ctx st
  have hfpcase :
      (match findPersonForward i.fp ctx st with
       | (.ok rec1, st1, ctx1) =>
         if rec1.success then
           match rec1.target with
           | some t1 => msgCore i t1 ctx1 st1
           | none => (.error "NameError: target", st1, ctx1)
         else
           (.ok { success := false, evaluation := "Could not find target for message",
                  consumed_time := 5, node_id := rec1.node_id }, st1, ctx1)
       | (.error _, st1, ctx1) =>
         msgExceptPath "find person raised" "None" ctx1 st1).1 = .ok rec →
      0 ≤ rec.consumed_time := by
    rw [heq]
    dsimp only
    by_cases hs : rec0.success
    · obtain ⟨t1, ht1⟩ := htgt hs
      rw [if_pos hs, ht1]
      exact hcore t1 ctx0 st0
    · rw [if_neg hs]
      intro hh
      injection hh with hh
      rw [← hh]
      norm_num
  unfold messageForward at h
  cases ctx with
  | none => exact hfpcase h
  | some c =>
    dsimp only at h
    cases hct : c.target with
    | none =>
      rw [hct] at h
      exact hfpcase h
    | some t =>
      rw [hct] at h
      dsimp only at h
      by_cases ht : t = ""
      · rw [if_pos ht] at h
        exact hfpcase h
      · rw [if_neg ht] at h
        exact hcore t (some c) st h

theorem time_nonneg_move (i : MoveInputs) (ctx : Context) (st : MobState)
    (rec : ResultRecord) (h : (moveForward i ctx st).1 = .ok rec) :
    0 ≤ rec.consumed_time := by
  unfold moveForward moveHome moveWork moveCustom at h
  dsimp only at h
  repeat' split at h
  all_goals dsimp only at h
  all_goals
    first
      | (injection h with h; rw [← h]; norm_num [stationaryResult, mobilityResult])
      | injection h

theorem time_nonneg_ps (i : PSInputs) (ctx : Context) (st : MobState)
    (rec : ResultRecord) (h : (psForward i ctx st).1 = .ok rec) :
    0 ≤ rec.consumed_time := by
  unfold psForward at h
  dsimp only at h
  repeat' split at h
  all_goals dsimp only at h
  all_goals
    first
      | (injection h with h; rw [← h]; norm_num)
      | injection h

theorem time_nonneg_mobnone (s : String) (st : MobState) (rec : ResultRecord)
    (h : (mobilityNoneForward s st).1 = .ok rec) : 0 ≤ rec.consumed_time := by
  unfold mobilityNoneForward at h
  dsimp only at h
  injection h with h
  rw [← h]

theorem time_nonneg_mob (i : MobilityBlockIn) (ctx : Context) (st : MobState)
    (tr : Nat) (rec : ResultRecord)
    (h : (mobilityBlockForward i ctx st tr).1 = .ok rec) :
    0 ≤ rec.consumed_time := by
  unfold mobilityBlockForward at h
  cases hd : dispatchMob i.d with
  | placeSelection =>
    rw [hd] at h
    dsimp only at h
    exact time_nonneg_ps i.ps ctx st rec h
  | move =>
    rw [hd] at h
    dsimp only at h
    exact time_nonneg_move i.mv ctx st rec h
  | noneBlock =>
    rw [hd] at h
    dsimp only at h
    exact time_nonneg_mobnone i.ps.intention st rec h

theorem time_nonneg_soc (i : SocialBlockIn) (ctx : Option Context)
    (st : SocState) (tr : Nat) (rec : ResultRecord) (hok : SNTimeOk i.sn)
    (h : (socialBlockForward i ctx st tr).1 = .ok rec) :
    0 ≤ rec.consumed_time := by
  unfold socialBlockForward at h
  cases hd : dispatchSoc i.d with
  | findPerson =>
    rw [hd] at h
    rcases hsub : findPersonForward i.fp ctx st with ⟨r1, st1, ctx1⟩
    rw [hsub] at h
    cases r1 with
    | ok rec1 =>
      dsimp only at h
      injection h with h
      rw [← h]
      exact time_nonneg_fp i.fp ctx st rec1 (by rw [hsub])
    | error e =>
      dsimp only at h
      injection h with h
      rw [← h]
      norm_num
  | message =>
    rw [hd] at h
    rcases hsub : messageForward i.msg ctx st with ⟨r1, st1, ctx1⟩
    rw [hsub] at h
    cases r1 with
    | ok rec1 =>
      dsimp only at h
      injection h with h
      rw [← h]
      exact time_nonneg_msg i.msg ctx st rec1 (by rw [hsub])
    | error e =>
      dsimp only at h
      injection h with h
      rw [← h]
      norm_num
  | noneBlock =>
    rw [hd] at h
    rcases hsub : socialNoneForward i.sn ctx st with ⟨r1, st1⟩
    rw [hsub] at h
    cases r1 with
    | ok rec1 =>
      dsimp only at h
      injection h with h
      rw [← h]
      exact time_nonneg_sn i.sn ctx st rec1 hok (by rw [hsub])
    | error e =>
      dsimp only at h
      injection h with h
      rw [← h]
      norm_num

/-! ## Claim C9 -/

/-- C9 counterexample: `SocialNoneBlock.forward` uses the oracle's parsed
`time` field as `consumed_time` without validation; an oracle reply of
`{"time": -5}` produces a ResultRecord with `consumed_time = -5 < 0`. -/
theorem c9_counterexample :
    socialNoneForward { intention := "chat", timeResp := .ok (some (-5)) }
      (some { plan := some "p" })
      { mem := { friends := [], relationships := [], chatHistories := [],
                 attitude := some [] }, stream := [] } =
    (.ok { success := true, evaluation := "Finished chat",
           consumed_time := -5, node_id := some 0 },
     { mem := { friends := [], relationships := [], chatHistories := [],
                attitude := some [] }, stream := ["I chat"] }) ∧
    ((-5 : Int) < 0) := ⟨rfl, by decide⟩

/-- C9 (amended): every ResultRecord produced by any behavior or
coordinator `forward` has `consumed_time ≥ 0`, *except* that
`SocialNoneBlock`'s success path copies the oracle's parsed `time`
verbatim: its records (and hence those `SocialBlock` forwards from it)
are only non-negative under the assumption `SNTimeOk` that the oracle's
time is ≥ 0 (counterexample otherwise). -/
theorem c9_consumed_time_nonneg :
    (∀ i ctx st rec, (findPersonForward i ctx st).1 = .ok rec →
      0 ≤ rec.consumed_time) ∧
    (∀ i ctx st rec, (messageForward i ctx st).1 = .ok rec →
      0 ≤ rec.consumed_time) ∧
    (∀ i ctx st rec, SNTimeOk i → (socialNoneForward i ctx st).1 = .ok rec →
      0 ≤ rec.consumed_time) ∧
    (∀ i ctx st rec, (moveForward i ctx st).1 = .ok rec →
      0 ≤ rec.consumed_time) ∧
    (∀ i ctx st rec, (psForward i ctx st).1 = .ok rec →
      0 ≤ rec.consumed_time) ∧
    (∀ s st rec, (mobilityNoneForward s st).1 = .ok rec →
      0 ≤ rec.consumed_time) ∧
    (∀ i ctx st tr rec, (mobilityBlockForward i ctx st tr).1 = .ok rec →
      0 ≤ rec.consumed_time) ∧
    (∀ i ctx st tr rec, SNTimeOk i.sn →
      (socialBlockForward i ctx st tr).1 = .ok rec → 0 ≤ rec.consumed_time) :=
  ⟨time_nonneg_fp, time_nonneg_msg,
   fun i ctx st rec hok h => time_nonneg_sn i ctx st rec hok h,
   time_nonneg_move, time_nonneg_ps, time_nonneg_mobnone, time_nonneg_mob,
   fun i ctx st tr rec hok h => time_nonneg_soc i ctx st tr rec hok h⟩

/-- C9 witness: the `SocialNoneBlock` conjunct applied at an oracle reply
with time 7. -/
theorem c9_witness :
    0 ≤ (({ success := true, evaluation := "Finished chat",
            consumed_time := 7, node_id := some 0 } : ResultRecord)).consumed_time :=
  c9_consumed_time_nonneg.2.2.1
    { intention := "chat", timeResp := .ok (some 7) }
    (some { plan := some "p" })
    { mem := { friends := [], relationships := [], chatHistories := [],
               attitude := some [] }, stream := [] }
    { success := true, evaluation := "Finished chat",
      consumed_time := 7, node_id := some 0 }
    (by norm_num [SNTimeOk]) rfl
